import Mathlib

/-!
Shallow embedding of src/src/planning/global/nature_global_path_node.cpp.

The node keeps global state (odometry, grids, waypoint list, flags) updated
by subscription callbacks, and a main loop that each tick publishes the
lifecycle state, optionally applies a newly received waypoint list, runs the
planner and path compositor, checks progress along the waypoints and drives
the shutdown debounce.  Coordinates are embedded as rationals; the C++ code
compares sqrt(dx*dx+dy*dy) < goal_dist, which for the nonnegative radicand
is equivalent to 0 < goal_dist and dx^2+dy^2 < goal_dist^2, the executable
form used here (the equivalence with the real square root is proved below).
Grid contents and planner output do not influence the node state, so grid
messages are modelled as no-ops and the compositor is a separate pure
function taking the raw planner path as input.
-/

namespace NatureGlobalPath

/-- A 2D position, the component of poses the node reads. -/
abbrev Point := ℚ × ℚ

/-- Startup parameters read once before the loop. -/
structure Config where
  goal_dist : ℚ
  shutdown_behavior : Int

/-- Clamping of the shutdown_behavior parameter:
if (shutdown_behavior>3 || shutdown_behavior<1) shutdown_behavior = 1. -/
def clampShutdown (b : Int) : Int :=
  if b > 3 || b < 1 then 1 else b

/-- The progress test d < goal_dist where d = sqrt(dx*dx + dy*dy).  Since d
is nonnegative, d < t holds iff 0 < t and dx*dx+dy*dy < t*t; this exact form
keeps the definition executable over the rationals (see distLt_iff_sqrt). -/
def distLt (dx dy t : ℚ) : Bool :=
  decide (0 < t) && decide (dx * dx + dy * dy < t * t)

/-- The mutable state of the node: the file scope globals together with the
locals of main that live across loop iterations.  The oob field records that
an out-of-bounds vector access (undefined behavior in the C++) happened. -/
structure NodeState where
  odom : Point
  odom_rcvd : Bool
  current_waypoints : List Point
  waypoints_rcvd : Bool
  state : Int
  goal : Point
  shutdown_condition : Bool
  current_waypoint : Nat
  shutdown_count : Nat
  waypoints_change_once : Bool
  nl : Nat
  oob : Bool

/-- Block at the top of the loop guarded by
(waypoints_rcvd && waypoints_change_once): reset the index to 0, set the
goal from poses[0] (out of bounds when the received list is empty), clear
waypoints_change_once and go active, publishing state 0. -/
def processWaypoints (s : NodeState) : NodeState × List Int :=
  if s.waypoints_rcvd && s.waypoints_change_once then
    ({ s with
        current_waypoint := 0,
        goal := s.current_waypoints.getD 0 ((0 : ℚ), (0 : ℚ)),
        oob := s.oob || s.current_waypoints.isEmpty,
        waypoints_change_once := false,
        state := 0 },
     [(0 : Int)])
  else (s, [])

/-- Block guarded by (odom_rcvd && state.data != -1): progress check and
lifecycle update.  The C++ comparison current_waypoint == poses.size()-1 is
over size_t, so for an empty list it is false (size()-1 wraps around); the
equivalent wrap-free form current_waypoint+1 == size is used.  Returns the
new state, the states published inside the block and whether the loop breaks
(shutdown_count > 10). -/
def odomBranch (cfg : Config) (s : NodeState) : NodeState × List Int × Bool :=
  if s.odom_rcvd && (s.state != -1) then
    let dx := s.goal.1 - s.odom.1
    let dy := s.goal.2 - s.odom.2
    let near := distLt dx dy cfg.goal_dist
    if s.current_waypoint + 1 == s.current_waypoints.length then
      if near || s.shutdown_condition then
        let sb := clampShutdown cfg.shutdown_behavior
        let sc := s.shutdown_count + 1
        ({ s with shutdown_condition := true, state := sb, shutdown_count := sc },
         [sb], decide (10 < sc))
      else (s, [], false)
    else
      if near then
        let ncw := s.current_waypoint + 1
        ({ s with
            current_waypoint := ncw,
            goal := s.current_waypoints.getD ncw ((0 : ℚ), (0 : ℚ)),
            oob := s.oob || decide (s.current_waypoints.length ≤ ncw),
            state := 0 },
         [(0 : Int)], false)
      else
        ({ s with state := 0 }, [(0 : Int)], false)
  else (s, [], false)

/-- One iteration of the while loop before spin_some: publish the current
state, process a pending first waypoint replacement, run the odometry
branch, increment nl.  Second component: all states published this tick, in
order.  Third component: whether the loop breaks. -/
def stepBody (cfg : Config) (s : NodeState) : NodeState × List Int × Bool :=
  let p := processWaypoints s
  let o := odomBranch cfg p.1
  ({ o.1 with nl := o.1.nl + 1 }, s.state :: (p.2 ++ o.2.1), o.2.2)

/-- Messages delivered by spin_some; grid messages do not touch the state
the claims depend on (they only feed the opaque planner). -/
inductive Event where
  | odomMsg (p : Point)
  | mapMsg
  | segMapMsg
  | waypointsMsg (w : List Point)

/-- Subscription callbacks: OdometryCallback stores the pose and sets
odom_rcvd; WaypointCallback overwrites current_waypoints wholesale and sets
waypoints_rcvd; the grid callbacks store only planner input. -/
def applyEvent (s : NodeState) : Event → NodeState
  | .odomMsg p => { s with odom := p, odom_rcvd := true }
  | .waypointsMsg w => { s with current_waypoints := w, waypoints_rcvd := true }
  | .mapMsg => s
  | .segMapMsg => s

/-- One full tick: loop body, then (unless the loop broke) the callbacks run
by spin_some for the messages delivered this tick. -/
def tick (cfg : Config) (s : NodeState) (evs : List Event) :
    NodeState × List Int × Bool :=
  let r := stepBody cfg s
  if r.2.2 then r else (evs.foldl applyEvent r.1, r.2.1, false)

/-- Run the loop over a schedule of per-tick message deliveries, recording
for each executed tick the state after it, the states published in it, and
whether it broke; the trace stops at the break. -/
def runTrace (cfg : Config) (s : NodeState) :
    List (List Event) → List (NodeState × List Int × Bool)
  | [] => []
  | evs :: rest =>
    let r := tick cfg s evs
    if r.2.2 then [r] else r :: runTrace cfg r.1 rest

/-- All states published along a trace, in order. -/
def tracePubs (tr : List (NodeState × List Int × Bool)) : List Int :=
  (tr.map fun r => r.2.1).flatten

/-- Whether the loop terminated (break taken) within the trace. -/
def traceBroke (tr : List (NodeState × List Int × Bool)) : Bool :=
  tr.any fun r => r.2.2

/-- Value of shutdown_count after each executed tick. -/
def traceCounts (tr : List (NodeState × List Int × Bool)) : List Nat :=
  tr.map fun r => r.1.shutdown_count

/-- State at the end of a trace (the start state for an empty trace). -/
def traceEnd (s : NodeState) (tr : List (NodeState × List Int × Bool)) :
    NodeState :=
  match tr.getLast? with
  | some r => r.1
  | none => s

/-- Initialization in main before the loop: read /waypoints_x and
/waypoints_y, warn on mismatch, take num_waypoints = min of the lengths,
and when positive fill current_waypoints from the first num_waypoints pairs,
set the goal to the first pair, go active and publish state 0; otherwise
leave the list empty and the state at -1.  Second component: the states
published during initialization. -/
def initNode (xs ys : List ℚ) : NodeState × List Int :=
  let n := min xs.length ys.length
  let base : NodeState :=
    { odom := (0, 0), odom_rcvd := false,
      current_waypoints := [], waypoints_rcvd := false,
      state := -1, goal := (0, 0),
      shutdown_condition := false, current_waypoint := 0,
      shutdown_count := 0, waypoints_change_once := true,
      nl := 0, oob := false }
  if 0 < n then
    ({ base with
        current_waypoints := (List.range n).map fun i => (xs.getD i 0, ys.getD i 0),
        goal := (xs.getD 0 0, ys.getD 0 0),
        state := 0 },
     [(0 : Int)])
  else (base, [])

/-- The while loop appending the remaining waypoints to the planned path:
cp starts at current_waypoint and while cp < poses.size()-1 the position of
poses[cp+1] is pushed.  The C++ guard is over size_t; for a nonempty list it
equals cp+1 < size, the wrap-free form used here (for an empty list the C++
guard wraps around and reads out of bounds, undefined behavior). -/
def appendRemaining (wps : List Point) (cp : Nat) : List Point :=
  if h : cp + 1 < wps.length then
    wps.get ⟨cp + 1, h⟩ :: appendRemaining wps (cp + 1)
  else []
termination_by wps.length - cp

/-- The path compositor: the straight-line remainder is appended only when
the raw planned path has more than one point. -/
def compositePath (raw wps : List Point) (cp : Nat) : List Point :=
  if 1 < raw.length then raw ++ appendRemaining wps cp else raw

/-- Longest run of consecutive ticks during which shutdown_count increased
by one per tick, over the per-tick counts of a trace (the count before the
loop is 0).  Used to measure consecutive ticks spent in the shutdown branch. -/
def streakAux : Nat → Nat → Nat → List Nat → Nat
  | _, cur, best, [] => max best cur
  | prev, cur, best, c :: rest =>
    if c == prev + 1 then streakAux c (cur + 1) best rest
    else streakAux c 0 (max best cur) rest

/-- Longest number of consecutive ticks in the shutdown branch along a list
of per-tick shutdown_count values. -/
def maxShutdownStreak (counts : List Nat) : Nat :=
  streakAux 0 0 0 counts

/-- Whether a message is a waypoint-list replacement. -/
def isWaypointsMsg : Event → Bool
  | .waypointsMsg _ => true
  | _ => false

/-- The latched shutdown situation: a shutdown state is current, the
shutdown condition is set, the current index is the last one, and no first
replacement is pending. -/
def ShutdownLatched (s : NodeState) : Prop :=
  (s.state = 1 ∨ s.state = 2 ∨ s.state = 3) ∧
  s.shutdown_condition = true ∧
  s.current_waypoint + 1 = s.current_waypoints.length ∧
  (s.waypoints_rcvd = false ∨ s.waypoints_change_once = false)

/-- States the loop can publish: -1, 0, or the clamped shutdown behavior. -/
def StateOk (cfg : Config) (s : NodeState) : Prop :=
  s.state = -1 ∨ s.state = 0 ∨ s.state = clampShutdown cfg.shutdown_behavior

/-- Node state when no static waypoints are configured. -/
def emptyStart : NodeState := (initNode [] []).1

/-- Node state when a single static waypoint (0,0) is configured. -/
def originStart : NodeState := (initNode [0] [0]).1

/-- Parameters goal_dist = 3 (the default) and shutdown_behavior = 2. -/
def cfgA : Config := ⟨3, 2⟩

/-- State used to instantiate the latched-shutdown theorems: a one-waypoint
configuration that has reached its goal and published state 2. -/
def sLatched : NodeState :=
  { originStart with
      odom_rcvd := true, state := 2, shutdown_condition := true }

/-- State with the debounce counter at 10, one tick before the break. -/
def sCount10 : NodeState :=
  { originStart with
      odom_rcvd := true, shutdown_count := 10 }

/-- Active state at distance 0 from the first of two waypoints. -/
def sAdv : NodeState :=
  { emptyStart with
      odom_rcvd := true, state := 0,
      current_waypoints := [(0, 0), (1, 1)], goal := (0, 0), odom := (0, 0) }

/-- Active state at distance exactly 3 from the first of two waypoints. -/
def sEq : NodeState :=
  { sAdv with
      odom := (3, 0) }

/-- Active state at distance 0 from the only (hence last) waypoint. -/
def sFinal : NodeState :=
  { originStart with
      odom_rcvd := true, state := 0 }

/-! ### Helper lemmas -/

theorem clampShutdown_mem (b : Int) :
    clampShutdown b = 1 ∨ clampShutdown b = 2 ∨ clampShutdown b = 3 := by
  unfold clampShutdown
  split
  · exact Or.inl rfl
  · next h =>
    simp only [Bool.or_eq_true, decide_eq_true_eq, not_or] at h
    omega

theorem distLt_iff_sqrt (dx dy t : ℚ) :
    distLt dx dy t = true ↔
      Real.sqrt ((dx : ℝ) ^ 2 + (dy : ℝ) ^ 2) < (t : ℝ) := by
  unfold distLt
  rw [Bool.and_eq_true, decide_eq_true_eq, decide_eq_true_eq]
  constructor
  · rintro ⟨ht, hs⟩
    have ht' : (0 : ℝ) < (t : ℝ) := by exact_mod_cast ht
    rw [Real.sqrt_lt' ht']
    have : ((dx * dx + dy * dy : ℚ) : ℝ) < ((t * t : ℚ) : ℝ) := by exact_mod_cast hs
    push_cast at this
    nlinarith [this]
  · intro h
    have ht' : (0 : ℝ) < (t : ℝ) := lt_of_le_of_lt (Real.sqrt_nonneg _) h
    refine ⟨by exact_mod_cast ht', ?_⟩
    have hs := (Real.sqrt_lt' ht').mp h
    have : ((dx : ℝ)) * dx + (dy : ℝ) * dy < (t : ℝ) * t := by nlinarith [hs]
    exact_mod_cast this

theorem appendRemaining_eq_drop (wps : List Point) (cp : Nat) :
    appendRemaining wps cp = wps.drop (cp + 1) := by
  rw [appendRemaining]
  split
  · next h =>
    rw [appendRemaining_eq_drop wps (cp + 1), List.get_eq_getElem,
      List.drop_eq_getElem_cons h]
  · next h =>
    rw [List.drop_eq_nil_of_le (by omega)]
termination_by wps.length - cp
decreasing_by simp_wf; omega

theorem processWaypoints_waypoints (s : NodeState) :
    (processWaypoints s).1.current_waypoints = s.current_waypoints := by
  unfold processWaypoints
  split <;> rfl

theorem processWaypoints_count (s : NodeState) :
    (processWaypoints s).1.shutdown_count = s.shutdown_count := by
  unfold processWaypoints
  split <;> rfl

theorem processWaypoints_cw (s : NodeState) :
    (processWaypoints s).1.current_waypoint = 0 ∨
    (processWaypoints s).1.current_waypoint = s.current_waypoint := by
  unfold processWaypoints
  split
  · exact Or.inl rfl
  · exact Or.inr rfl

theorem processWaypoints_skip (s : NodeState)
    (h : s.waypoints_rcvd = false ∨ s.waypoints_change_once = false) :
    processWaypoints s = (s, []) := by
  unfold processWaypoints
  rw [if_neg]
  rcases h with h | h <;> simp [h]

theorem odomBranch_bound (cfg : Config) (s : NodeState)
    (h : s.current_waypoint < s.current_waypoints.length) :
    (odomBranch cfg s).1.current_waypoint <
      (odomBranch cfg s).1.current_waypoints.length ∧
    (odomBranch cfg s).1.current_waypoints = s.current_waypoints ∧
    s.current_waypoint ≤ (odomBranch cfg s).1.current_waypoint := by
  unfold odomBranch
  dsimp only
  split
  · split
    · split
      · exact ⟨h, rfl, le_refl _⟩
      · exact ⟨h, rfl, le_refl _⟩
    · next hlast =>
      split
      · refine ⟨?_, rfl, Nat.le_succ _⟩
        dsimp only
        simp only [beq_iff_eq] at hlast
        omega
      · exact ⟨h, rfl, le_refl _⟩
  · exact ⟨h, rfl, le_refl _⟩

theorem stepBody_fst (cfg : Config) (s : NodeState) :
    (stepBody cfg s).1 =
      { (odomBranch cfg (processWaypoints s).1).1 with
          nl := (odomBranch cfg (processWaypoints s).1).1.nl + 1 } := rfl

theorem stepBody_pubs_eq (cfg : Config) (s : NodeState) :
    (stepBody cfg s).2.1 =
      s.state :: ((processWaypoints s).2 ++
        (odomBranch cfg (processWaypoints s).1).2.1) := rfl

theorem stepBody_brk_eq (cfg : Config) (s : NodeState) :
    (stepBody cfg s).2.2 = (odomBranch cfg (processWaypoints s).1).2.2 := rfl

theorem odomBranch_count (cfg : Config) (s : NodeState) :
    (odomBranch cfg s).1.shutdown_count = s.shutdown_count ∨
    (odomBranch cfg s).1.shutdown_count = s.shutdown_count + 1 := by
  unfold odomBranch
  dsimp only
  split
  · split
    · split
      · exact Or.inr rfl
      · exact Or.inl rfl
    · split
      · exact Or.inl rfl
      · exact Or.inl rfl
  · exact Or.inl rfl

theorem odomBranch_brk (cfg : Config) (s : NodeState) :
    (odomBranch cfg s).2.2 = true →
    (odomBranch cfg s).1.shutdown_count = s.shutdown_count + 1 ∧
    10 < (odomBranch cfg s).1.shutdown_count := by
  unfold odomBranch
  dsimp only
  split
  · split
    · split
      · intro h
        dsimp only at h ⊢
        simp only [decide_eq_true_eq] at h
        exact ⟨rfl, h⟩
      · intro h; simp at h
    · split
      · intro h; simp at h
      · intro h; simp at h
  · intro h; simp at h

theorem processWaypoints_pubs_state (s : NodeState) :
    ((processWaypoints s).2 = [] ∨ (processWaypoints s).2 = [0]) ∧
    ((processWaypoints s).1.state = s.state ∨ (processWaypoints s).1.state = 0) := by
  unfold processWaypoints
  split
  · exact ⟨Or.inr rfl, Or.inr rfl⟩
  · exact ⟨Or.inl rfl, Or.inl rfl⟩

theorem odomBranch_pubs_state (cfg : Config) (s : NodeState) :
    ((odomBranch cfg s).2.1 = [] ∨ (odomBranch cfg s).2.1 = [0] ∨
      (odomBranch cfg s).2.1 = [clampShutdown cfg.shutdown_behavior]) ∧
    ((odomBranch cfg s).1.state = s.state ∨ (odomBranch cfg s).1.state = 0 ∨
      (odomBranch cfg s).1.state = clampShutdown cfg.shutdown_behavior) := by
  unfold odomBranch
  dsimp only
  split
  · split
    · split
      · exact ⟨Or.inr (Or.inr rfl), Or.inr (Or.inr rfl)⟩
      · exact ⟨Or.inl rfl, Or.inl rfl⟩
    · split
      · exact ⟨Or.inr (Or.inl rfl), Or.inr (Or.inl rfl)⟩
      · exact ⟨Or.inr (Or.inl rfl), Or.inr (Or.inl rfl)⟩
  · exact ⟨Or.inl rfl, Or.inl rfl⟩

theorem applyEvent_state (s : NodeState) (e : Event) :
    (applyEvent s e).state = s.state := by
  cases e <;> rfl

theorem foldl_applyEvent_state (evs : List Event) (s : NodeState) :
    (evs.foldl applyEvent s).state = s.state := by
  induction evs generalizing s with
  | nil => rfl
  | cons e evs ih => rw [List.foldl_cons, ih, applyEvent_state]

theorem tick_pubs (cfg : Config) (s : NodeState) (evs : List Event) :
    (tick cfg s evs).2.1 = (stepBody cfg s).2.1 := by
  unfold tick
  dsimp only
  split <;> rfl

theorem tick_brk (cfg : Config) (s : NodeState) (evs : List Event) :
    (tick cfg s evs).2.2 = (stepBody cfg s).2.2 := by
  unfold tick
  dsimp only
  split
  · rfl
  · next hb => exact ((Bool.not_eq_true _).mp hb).symm

theorem tick_state (cfg : Config) (s : NodeState) (evs : List Event) :
    (tick cfg s evs).1.state = (stepBody cfg s).1.state := by
  unfold tick
  dsimp only
  split
  · rfl
  · exact foldl_applyEvent_state evs (stepBody cfg s).1

theorem tracePubs_cons (r : NodeState × List Int × Bool)
    (tr : List (NodeState × List Int × Bool)) :
    tracePubs (r :: tr) = r.2.1 ++ tracePubs tr := rfl

theorem applyEvent_latched (s : NodeState) (e : Event)
    (he : isWaypointsMsg e = false) (h : ShutdownLatched s) :
    ShutdownLatched (applyEvent s e) := by
  cases e with
  | odomMsg p => exact h
  | mapMsg => exact h
  | segMapMsg => exact h
  | waypointsMsg w => simp [isWaypointsMsg] at he

theorem foldl_applyEvent_latched (evs : List Event) (s : NodeState)
    (hw : ∀ e ∈ evs, isWaypointsMsg e = false) (h : ShutdownLatched s) :
    ShutdownLatched (evs.foldl applyEvent s) := by
  induction evs generalizing s with
  | nil => exact h
  | cons e evs ih =>
    rw [List.foldl_cons]
    exact ih (applyEvent s e) (fun x hx => hw x (List.mem_cons_of_mem e hx))
      (applyEvent_latched s e (hw e (List.mem_cons_self e evs)) h)

theorem odomBranch_latched (cfg : Config) (s : NodeState)
    (hsc : s.shutdown_condition = true)
    (hlast : s.current_waypoint + 1 = s.current_waypoints.length) :
    odomBranch cfg s = (s, [], false) ∨
    odomBranch cfg s =
      ({ s with shutdown_condition := true,
                state := clampShutdown cfg.shutdown_behavior,
                shutdown_count := s.shutdown_count + 1 },
       [clampShutdown cfg.shutdown_behavior],
       decide (10 < s.shutdown_count + 1)) := by
  unfold odomBranch
  dsimp only
  by_cases hod : (s.odom_rcvd && (s.state != -1)) = true
  · rw [if_pos hod, if_pos (by simpa [beq_iff_eq] using hlast),
      if_pos (by simp [hsc])]
    exact Or.inr rfl
  · rw [if_neg hod]
    exact Or.inl rfl

theorem stepBody_latched (cfg : Config) (s : NodeState)
    (h : ShutdownLatched s) :
    ShutdownLatched (stepBody cfg s).1 ∧
    ∀ x ∈ (stepBody cfg s).2.1, x = 1 ∨ x = 2 ∨ x = 3 := by
  obtain ⟨hst, hsc, hlast, hskip⟩ := h
  have hp : processWaypoints s = (s, []) := processWaypoints_skip s hskip
  have hpubs := stepBody_pubs_eq cfg s
  have hfst := stepBody_fst cfg s
  rw [hp] at hpubs hfst
  rcases odomBranch_latched cfg s hsc hlast with hob | hob
  · rw [hob] at hpubs hfst
    constructor
    · rw [hfst]
      exact ⟨hst, hsc, hlast, hskip⟩
    · intro x hx
      rw [hpubs] at hx
      simp only [List.nil_append, List.mem_cons, List.not_mem_nil, or_false] at hx
      rw [hx]
      exact hst
  · rw [hob] at hpubs hfst
    constructor
    · rw [hfst]
      exact ⟨clampShutdown_mem cfg.shutdown_behavior, rfl, hlast, hskip⟩
    · intro x hx
      rw [hpubs] at hx
      simp only [List.nil_append, List.mem_cons, List.mem_singleton,
        List.not_mem_nil, or_false] at hx
      rcases hx with hx | hx
      · rw [hx]; exact hst
      · rw [hx]; exact clampShutdown_mem cfg.shutdown_behavior

theorem stepBody_stateOk (cfg : Config) (s : NodeState) (h : StateOk cfg s) :
    StateOk cfg (stepBody cfg s).1 ∧
    ∀ x ∈ (stepBody cfg s).2.1,
      x = -1 ∨ x = 0 ∨ x = clampShutdown cfg.shutdown_behavior := by
  obtain ⟨pp, ps⟩ := processWaypoints_pubs_state s
  obtain ⟨op, os⟩ := odomBranch_pubs_state cfg (processWaypoints s).1
  have e1 : (stepBody cfg s).1.state =
      (odomBranch cfg (processWaypoints s).1).1.state := rfl
  constructor
  · unfold StateOk
    rw [e1]
    rcases os with h1 | h1 | h1
    · rw [h1]
      rcases ps with h2 | h2
      · rw [h2]; exact h
      · rw [h2]; exact Or.inr (Or.inl rfl)
    · rw [h1]; exact Or.inr (Or.inl rfl)
    · rw [h1]; exact Or.inr (Or.inr rfl)
  · intro x hx
    rw [stepBody_pubs_eq] at hx
    rcases List.mem_cons.mp hx with hx | hx
    · rw [hx]; exact h
    · rcases List.mem_append.mp hx with hx | hx
      · rcases pp with h2 | h2 <;> rw [h2] at hx <;> simp at hx
        rw [hx]; exact Or.inr (Or.inl rfl)
      · rcases op with h2 | h2 | h2 <;> rw [h2] at hx <;> simp at hx
        · rw [hx]; exact Or.inr (Or.inl rfl)
        · rw [hx]; exact Or.inr (Or.inr rfl)

theorem runTrace_stateOk (cfg : Config) (sched : List (List Event))
    (s : NodeState) (h : StateOk cfg s) :
    ∀ x ∈ tracePubs (runTrace cfg s sched),
      x = -1 ∨ x = 0 ∨ x = clampShutdown cfg.shutdown_behavior := by
  induction sched generalizing s with
  | nil =>
    intro x hx
    simp [runTrace, tracePubs] at hx
  | cons evs rest ih =>
    intro x hx
    simp only [runTrace] at hx
    by_cases hb : (tick cfg s evs).2.2 = true
    · rw [if_pos hb] at hx
      rw [tracePubs_cons, tick_pubs] at hx
      rcases List.mem_append.mp hx with hx | hx
      · exact (stepBody_stateOk cfg s h).2 x hx
      · simp [tracePubs] at hx
    · rw [if_neg hb] at hx
      rw [tracePubs_cons, tick_pubs] at hx
      rcases List.mem_append.mp hx with hx | hx
      · exact (stepBody_stateOk cfg s h).2 x hx
      · refine ih (tick cfg s evs).1 ?_ x hx
        have := (stepBody_stateOk cfg s h).1
        unfold StateOk at this ⊢
        rwa [tick_state]

/-! ### Claim theorems -/

/-- C1 (counterexample): the claim says EVERY external waypoint replacement
received during the loop resets the index to 0 and recomputes the goal from
the new list.  In the code only the first replacement does, because
waypoints_change_once is cleared and never set again.  Here a first list
[(0,0),(10,0)] is received and tracked up to index 1, then a second list
[(50,50),(60,60)] is received: one tick later the stored list is the new
one but the index is still 1 (not 0) and the goal is still (10,0), not the
position (50,50) of the new element at index 0. -/
theorem c1_counterexample :
    (traceEnd emptyStart (runTrace cfgA emptyStart
        [[.waypointsMsg [(0, 0), (10, 0)]],
         [.odomMsg (0, 0)],
         [.waypointsMsg [(50, 50), (60, 60)]],
         []])).current_waypoints = [((50 : ℚ), (50 : ℚ)), (60, 60)] ∧
    (traceEnd emptyStart (runTrace cfgA emptyStart
        [[.waypointsMsg [(0, 0), (10, 0)]],
         [.odomMsg (0, 0)],
         [.waypointsMsg [(50, 50), (60, 60)]],
         []])).current_waypoint = 1 ∧
    (traceEnd emptyStart (runTrace cfgA emptyStart
        [[.waypointsMsg [(0, 0), (10, 0)]],
         [.odomMsg (0, 0)],
         [.waypointsMsg [(50, 50), (60, 60)]],
         []])).goal = ((10 : ℚ), (0 : ℚ)) := by
  norm_num [runTrace, tick, stepBody, processWaypoints, odomBranch, applyEvent,
    distLt, clampShutdown, initNode, emptyStart, cfgA, traceEnd, List.getD]

/-- C1 (amended): only the FIRST external waypoint replacement received
while the loop runs is applied to the tracker: it resets the index to 0,
recomputes the goal from element 0 of the stored list and goes Active,
clearing waypoints_change_once; once that flag is cleared the processing
block is a no-op, so later replacements overwrite the stored list without
resetting the index or the goal. -/
theorem c1_first_replacement_only (s : NodeState) :
    (s.waypoints_rcvd = true → s.waypoints_change_once = true →
      (processWaypoints s).1.current_waypoint = 0 ∧
      (processWaypoints s).1.goal = s.current_waypoints.getD 0 (0, 0) ∧
      (processWaypoints s).1.state = 0 ∧
      (processWaypoints s).1.waypoints_change_once = false ∧
      (processWaypoints s).2 = [0]) ∧
    (s.waypoints_change_once = false → processWaypoints s = (s, [])) := by
  constructor
  · intro h1 h2
    unfold processWaypoints
    rw [if_pos (by rw [h1, h2]; rfl)]
    exact ⟨rfl, rfl, rfl, rfl, rfl⟩
  · intro h
    exact processWaypoints_skip s (Or.inr h)

/-- Closed instantiation of c1_first_replacement_only: a state with a
pending first replacement is reset to index 0, and a state with the flag
already cleared is left unchanged. -/
theorem c1_first_replacement_only_witness :
    (processWaypoints { emptyStart with
        waypoints_rcvd := true, current_waypoints := [(7, 8)],
        current_waypoint := 0 }).1.current_waypoint = 0 ∧
    processWaypoints { emptyStart with waypoints_change_once := false } =
      ({ emptyStart with waypoints_change_once := false }, []) :=
  ⟨((c1_first_replacement_only { emptyStart with
      waypoints_rcvd := true, current_waypoints := [(7, 8)],
      current_waypoint := 0 }).1 rfl rfl).1,
   (c1_first_replacement_only { emptyStart with
      waypoints_change_once := false }).2 rfl⟩

/-- C5 (counterexample): the claim says at every tick the index is below
the length of the list in effect at that tick.  After a first replacement
[(0,0),(10,0),(20,0)] is applied and the index advances to 1, a second
replacement [(5,5)] is received; because only the first replacement resets
the tracker, the index stays 1 while the list in effect has length 1, so
the invariant index < length fails. -/
theorem c5_counterexample :
    ¬ ((traceEnd emptyStart (runTrace cfgA emptyStart
          [[.waypointsMsg [(0, 0), (10, 0), (20, 0)]],
           [.odomMsg (0, 0)],
           [.waypointsMsg [(5, 5)]]])).current_waypoint <
        (traceEnd emptyStart (runTrace cfgA emptyStart
          [[.waypointsMsg [(0, 0), (10, 0), (20, 0)]],
           [.odomMsg (0, 0)],
           [.waypointsMsg [(5, 5)]]])).current_waypoints.length) ∧
    (traceEnd emptyStart (runTrace cfgA emptyStart
        [[.waypointsMsg [(0, 0), (10, 0), (20, 0)]],
         [.odomMsg (0, 0)],
         [.waypointsMsg [(5, 5)]]])).current_waypoint = 1 ∧
    (traceEnd emptyStart (runTrace cfgA emptyStart
        [[.waypointsMsg [(0, 0), (10, 0), (20, 0)]],
         [.odomMsg (0, 0)],
         [.waypointsMsg [(5, 5)]]])).current_waypoints.length = 1 := by
  norm_num [runTrace, tick, stepBody, processWaypoints, odomBranch, applyEvent,
    distLt, clampShutdown, initNode, emptyStart, cfgA, traceEnd, List.getD]

/-- C5 (amended): within one loop body (no callback interleaving) the
invariant does hold: if the index is below the length of the stored list,
then after the body it still is, the stored list is unchanged, and when no
pending first replacement is applied the index is non-decreasing.  The
invariant can only be broken by a replacement delivered after the first
one, which overwrites the list without resetting the index. -/
theorem c5_index_invariant (cfg : Config) (s : NodeState)
    (h : s.current_waypoint < s.current_waypoints.length) :
    (stepBody cfg s).1.current_waypoint <
      (stepBody cfg s).1.current_waypoints.length ∧
    (stepBody cfg s).1.current_waypoints = s.current_waypoints ∧
    ((s.waypoints_rcvd = false ∨ s.waypoints_change_once = false) →
      s.current_waypoint ≤ (stepBody cfg s).1.current_waypoint) := by
  have hb1 : (stepBody cfg s).1.current_waypoint =
      (odomBranch cfg (processWaypoints s).1).1.current_waypoint := rfl
  have hb2 : (stepBody cfg s).1.current_waypoints =
      (odomBranch cfg (processWaypoints s).1).1.current_waypoints := rfl
  have hp : (processWaypoints s).1.current_waypoint <
      (processWaypoints s).1.current_waypoints.length := by
    rw [processWaypoints_waypoints]
    rcases processWaypoints_cw s with hc | hc <;> rw [hc] <;> omega
  obtain ⟨ho1, ho2, ho3⟩ := odomBranch_bound cfg (processWaypoints s).1 hp
  refine ⟨by rw [hb1, hb2]; exact ho1, by rw [hb2, ho2, processWaypoints_waypoints], ?_⟩
  intro hskip
  rw [hb1]
  have := processWaypoints_skip s hskip
  rw [this] at ho3 ⊢
  exact ho3

/-- Closed instantiation of c5_index_invariant on the initial state of a
one-waypoint configuration. -/
theorem c5_index_invariant_witness :
    (stepBody cfgA originStart).1.current_waypoint <
      (stepBody cfgA originStart).1.current_waypoints.length ∧
    originStart.current_waypoint ≤ (stepBody cfgA originStart).1.current_waypoint :=
  ⟨(c5_index_invariant cfgA originStart (by decide)).1,
   (c5_index_invariant cfgA originStart (by decide)).2.2 (Or.inl (by decide))⟩

/-- C6 (counterexample): the claim says state 0 is never published after a
shutdown state has been published.  With a single waypoint reached, state 2
is published; then an external replacement [(0,0),(9,9)] arrives, the
processing block goes back to Active and 0 is published again.  In the full
published sequence [0,0,0,2,2,0,0], a 2 at position 3 is followed by a 0 at
position 5. -/
theorem c6_counterexample :
    (initNode [0] [0]).2 ++ tracePubs (runTrace cfgA originStart
        [[.odomMsg (0, 0)],
         [.waypointsMsg [(0, 0), (9, 9)]],
         []]) = [0, 0, 0, 2, 2, 0, 0] ∧
    ((initNode [0] [0]).2 ++ tracePubs (runTrace cfgA originStart
        [[.odomMsg (0, 0)],
         [.waypointsMsg [(0, 0), (9, 9)]],
         []])).get? 3 = some 2 ∧
    ((initNode [0] [0]).2 ++ tracePubs (runTrace cfgA originStart
        [[.odomMsg (0, 0)],
         [.waypointsMsg [(0, 0), (9, 9)]],
         []])).get? 5 = some 0 := by
  norm_num [runTrace, tick, stepBody, processWaypoints, odomBranch, applyEvent,
    distLt, clampShutdown, initNode, originStart, cfgA, tracePubs, List.getD,
    List.get?]

/-- C4 (code bug): the claim says an empty waypoint list from either source
never moves the state machine out of Startup.  In the code, receiving an
empty external waypoint list while in Startup still fires the processing
branch: it reads poses[0] out of bounds (undefined behavior) and sets the
state to 0 (Active).  This run starts with no static waypoints (state -1),
delivers an empty external list, and ends with state 0 and the
out-of-bounds flag set. -/
theorem c4_empty_list_leaves_startup :
    (initNode [] []).1.state = -1 ∧
    (traceEnd (initNode [] []).1
        (runTrace ⟨3, 2⟩ (initNode [] []).1 [[.waypointsMsg []], []])).state = 0 ∧
    (traceEnd (initNode [] []).1
        (runTrace ⟨3, 2⟩ (initNode [] []).1 [[.waypointsMsg []], []])).oob = true := by
  decide

/-- C2 (counterexample): with /waypoints_x = [1,2,3] and /waypoints_y =
[4,5] (mismatched lengths), the claim demands an empty list and state -1;
the code instead truncates to the first two pairs and goes Active
(state 0). -/
theorem c2_counterexample :
    (initNode [1, 2, 3] [4, 5]).1.state = 0 ∧
    (initNode [1, 2, 3] [4, 5]).1.current_waypoints =
      [((1 : ℚ), (4 : ℚ)), (2, 5)] := by
  decide

/-- C2 (amended): a mismatched static configuration is truncated to
num_waypoints = min of the two lengths.  Only when that minimum is zero is
the list left empty with the node remaining in Startup (state -1); when it
is positive the node loads the truncated list, sets the goal to the first
pair and goes Active (state 0). -/
theorem c2_truncated_load (xs ys : List ℚ) :
    (min xs.length ys.length = 0 →
      (initNode xs ys).1.state = -1 ∧ (initNode xs ys).1.current_waypoints = []) ∧
    (0 < min xs.length ys.length →
      (initNode xs ys).1.state = 0 ∧
      (initNode xs ys).1.current_waypoints.length = min xs.length ys.length ∧
      (initNode xs ys).1.goal = (xs.getD 0 0, ys.getD 0 0)) := by
  unfold initNode
  constructor
  · intro h
    rw [if_neg (by omega)]
    exact ⟨rfl, rfl⟩
  · intro h
    rw [if_pos h]
    refine ⟨rfl, ?_, rfl⟩
    simp [List.length_map, List.length_range]

/-- Closed instantiation of c2_truncated_load at mismatched and at empty
configurations. -/
theorem c2_truncated_load_witness :
    ((initNode [1, 2, 3] [4, 5]).1.state = 0 ∧
      (initNode [1, 2, 3] [4, 5]).1.current_waypoints.length =
        min ([1, 2, 3] : List ℚ).length ([4, 5] : List ℚ).length ∧
      (initNode [1, 2, 3] [4, 5]).1.goal =
        (([1, 2, 3] : List ℚ).getD 0 0, ([4, 5] : List ℚ).getD 0 0)) ∧
    ((initNode [] []).1.state = -1 ∧
      (initNode ([] : List ℚ) ([] : List ℚ)).1.current_waypoints = []) :=
  ⟨(c2_truncated_load [1, 2, 3] [4, 5]).2 (by decide),
   (c2_truncated_load [] []).1 (by decide)⟩

/-- C9: when the raw planned path has more than one point the compositor
returns the raw points followed by the waypoints strictly after the current
index through the last one in order, and a raw path of length at most one
is passed through unchanged; including the concrete cases from the spec. -/
theorem c9_compositor :
    (∀ (raw wps : List Point) (cp : Nat), wps ≠ [] →
        (1 < raw.length → compositePath raw wps cp = raw ++ wps.drop (cp + 1)) ∧
        (raw.length ≤ 1 → compositePath raw wps cp = raw)) ∧
    compositePath [((1 : ℚ), (1 : ℚ)), (2, 2)] [((0 : ℚ), (0 : ℚ)), (5, 5), (9, 9)] 0 =
      [((1 : ℚ), (1 : ℚ)), (2, 2), (5, 5), (9, 9)] ∧
    compositePath ([] : List Point) [((0 : ℚ), (0 : ℚ)), (5, 5), (9, 9)] 0 = [] ∧
    compositePath [((3 : ℚ), (3 : ℚ))] [((0 : ℚ), (0 : ℚ)), (5, 5), (9, 9)] 0 =
      [((3 : ℚ), (3 : ℚ))] := by
  refine ⟨fun raw wps cp _ => ⟨fun h => ?_, fun h => ?_⟩, ?_, ?_, ?_⟩
  · unfold compositePath
    rw [if_pos h, appendRemaining_eq_drop]
  · unfold compositePath
    rw [if_neg (by omega)]
  · unfold compositePath
    rw [if_pos (by decide), appendRemaining_eq_drop]
    decide
  · decide
  · decide

/-- Closed instantiation of the quantified part of c9_compositor. -/
theorem c9_compositor_witness :
    compositePath [((1 : ℚ), (1 : ℚ)), (2, 2)] [((0 : ℚ), (0 : ℚ)), (5, 5), (9, 9)] 0 =
        [((1 : ℚ), (1 : ℚ)), (2, 2)] ++
          ([((0 : ℚ), (0 : ℚ)), (5, 5), (9, 9)] : List Point).drop 1 ∧
    compositePath [((3 : ℚ), (3 : ℚ))] [((0 : ℚ), (0 : ℚ)), (5, 5), (9, 9)] 0 =
      [((3 : ℚ), (3 : ℚ))] :=
  ⟨(c9_compositor.1 [((1 : ℚ), (1 : ℚ)), (2, 2)] [((0 : ℚ), (0 : ℚ)), (5, 5), (9, 9)] 0
      (by decide)).1 (by decide),
   (c9_compositor.1 [((3 : ℚ), (3 : ℚ))] [((0 : ℚ), (0 : ℚ)), (5, 5), (9, 9)] 0
      (by decide)).2 (by decide)⟩

/-- C6 (amended): once the latched shutdown situation holds (a shutdown
state 1, 2 or 3 current, shutdown_condition set, current index last, no
first replacement pending), every state published by the rest of the run is
1, 2 or 3 — provided no further external waypoint replacement is delivered.
Only a waypoint replacement can bring the published state back to 0. -/
theorem c6_no_return_to_active (cfg : Config) (sched : List (List Event))
    (s : NodeState)
    (hsched : ∀ evs ∈ sched, ∀ e ∈ evs, isWaypointsMsg e = false)
    (h : ShutdownLatched s) :
    ∀ x ∈ tracePubs (runTrace cfg s sched), x = 1 ∨ x = 2 ∨ x = 3 := by
  induction sched generalizing s with
  | nil =>
    intro x hx
    simp [runTrace, tracePubs] at hx
  | cons evs rest ih =>
    intro x hx
    simp only [runTrace] at hx
    by_cases hb : (tick cfg s evs).2.2 = true
    · rw [if_pos hb] at hx
      rw [tracePubs_cons, tick_pubs] at hx
      rcases List.mem_append.mp hx with hx | hx
      · exact (stepBody_latched cfg s h).2 x hx
      · simp [tracePubs] at hx
    · rw [if_neg hb] at hx
      rw [tracePubs_cons, tick_pubs] at hx
      rcases List.mem_append.mp hx with hx | hx
      · exact (stepBody_latched cfg s h).2 x hx
      · have h1 : ∀ evs ∈ rest, ∀ e ∈ evs, isWaypointsMsg e = false :=
          fun e he => hsched e (List.mem_cons_of_mem evs he)
        have h2 : ShutdownLatched (tick cfg s evs).1 := by
          have hstep := (stepBody_latched cfg s h).1
          have hb' : ¬(stepBody cfg s).2.2 = true := by
            rwa [tick_brk] at hb
          unfold tick
          dsimp only
          rw [if_neg hb']
          exact foldl_applyEvent_latched evs (stepBody cfg s).1
            (hsched evs (List.mem_cons_self evs rest)) hstep
        exact ih (tick cfg s evs).1 h1 h2 x hx

/-- Closed instantiation of c6_no_return_to_active: from a latched shutdown
state with published value 2, a value published later is one of 1, 2, 3. -/
theorem c6_no_return_to_active_witness :
    (2 : Int) = 1 ∨ (2 : Int) = 2 ∨ (2 : Int) = 3 :=
  c6_no_return_to_active cfgA [[.odomMsg (1, 1)], []] sLatched
    (by decide)
    (by
      unfold ShutdownLatched
      refine ⟨Or.inr (Or.inl rfl), rfl, ?_, Or.inl ?_⟩ <;> decide)
    2
    (by norm_num [runTrace, tick, stepBody, processWaypoints, odomBranch,
      applyEvent, distLt, clampShutdown, initNode, originStart, sLatched,
      cfgA, tracePubs])

set_option maxHeartbeats 2000000 in
/-- C3 (counterexample): the claim says the loop terminates only after more
than 10 CONSECUTIVE ticks in the shutdown condition.  The counter
shutdown_count is never reset, so ticks in the shutdown branch accumulate
across interruptions: here the node is in the shutdown branch for 6 ticks,
an external replacement brings it back to Active for one tick (the counter
keeps its value 6), the latch then re-enters the shutdown branch for 5 more
ticks, and the loop terminates — although the longest consecutive stretch
in the shutdown condition was only 6 ticks, never more than 10.  The
published states show the interruption: 0 is published between the two
stretches of 2. -/
theorem c3_counterexample :
    traceBroke (runTrace cfgA originStart
      ([.odomMsg (0, 0)] ::
        (List.replicate 5 [] ++ [[.waypointsMsg [(0, 0), (100, 100)]]] ++
          [[]] ++ List.replicate 6 []))) = true ∧
    maxShutdownStreak (traceCounts (runTrace cfgA originStart
      ([.odomMsg (0, 0)] ::
        (List.replicate 5 [] ++ [[.waypointsMsg [(0, 0), (100, 100)]]] ++
          [[]] ++ List.replicate 6 [])))) = 6 ∧
    tracePubs (runTrace cfgA originStart
      ([.odomMsg (0, 0)] ::
        (List.replicate 5 [] ++ [[.waypointsMsg [(0, 0), (100, 100)]]] ++
          [[]] ++ List.replicate 6 []))) =
      [0, 0, 2, 2, 2, 2, 2, 2, 2, 2, 2, 2, 2, 2, 0, 0, 0,
       2, 2, 2, 2, 2, 2, 2, 2, 2] := by
  refine ⟨?_, ?_, ?_⟩ <;>
    norm_num [runTrace, tick, stepBody, processWaypoints, odomBranch,
      applyEvent, distLt, clampShutdown, initNode, originStart, cfgA,
      traceBroke, traceCounts, tracePubs, maxShutdownStreak, streakAux,
      List.replicate, List.getD]

/-- C3 (amended): the loop breaks exactly when the shutdown debounce
counter exceeds 10; the counter increases by at most one per tick and never
decreases (it is also never reset, so the counted ticks are consecutive
only in the absence of waypoint replacements).  Concretely, with
shutdown-behavior 2 and the final waypoint within threshold, 11 ticks in
the shutdown branch terminate the loop with last published state 2, while
10 do not terminate it. -/
theorem c3_debounced_termination :
    (∀ (cfg : Config) (s : NodeState),
      ((stepBody cfg s).2.2 = true →
        (stepBody cfg s).1.shutdown_count = s.shutdown_count + 1 ∧
        10 < (stepBody cfg s).1.shutdown_count) ∧
      s.shutdown_count ≤ (stepBody cfg s).1.shutdown_count ∧
      (stepBody cfg s).1.shutdown_count ≤ s.shutdown_count + 1) ∧
    traceBroke (runTrace cfgA originStart
      ([.odomMsg (0, 0)] :: List.replicate 11 [])) = true ∧
    ((initNode [0] [0]).2 ++ tracePubs (runTrace cfgA originStart
      ([.odomMsg (0, 0)] :: List.replicate 11 []))).getLast? = some 2 ∧
    traceBroke (runTrace cfgA originStart
      ([.odomMsg (0, 0)] :: List.replicate 10 [])) = false := by
  refine ⟨fun cfg s => ?_, ?_, ?_, ?_⟩
  · have e1 : (stepBody cfg s).1.shutdown_count =
        (odomBranch cfg (processWaypoints s).1).1.shutdown_count := rfl
    have e2 := stepBody_brk_eq cfg s
    have hpc := processWaypoints_count s
    refine ⟨fun hb => ?_, ?_⟩
    · rw [e2] at hb
      obtain ⟨ha, h10⟩ := odomBranch_brk cfg (processWaypoints s).1 hb
      constructor
      · rw [e1, ha, hpc]
      · rw [e1]; exact h10
    · rcases odomBranch_count cfg (processWaypoints s).1 with h | h <;>
        rw [e1, h, hpc] <;> omega
  · norm_num [runTrace, tick, stepBody, processWaypoints, odomBranch,
      applyEvent, distLt, clampShutdown, initNode, originStart, cfgA,
      traceBroke, List.replicate]
  · norm_num [runTrace, tick, stepBody, processWaypoints, odomBranch,
      applyEvent, distLt, clampShutdown, initNode, originStart, cfgA,
      tracePubs, List.replicate, List.getLast?]
  · norm_num [runTrace, tick, stepBody, processWaypoints, odomBranch,
      applyEvent, distLt, clampShutdown, initNode, originStart, cfgA,
      traceBroke, List.replicate]

/-- Closed instantiation of the debounce property of
c3_debounced_termination at a state with counter 10 that breaks. -/
theorem c3_debounced_termination_witness :
    (stepBody cfgA sCount10).1.shutdown_count = sCount10.shutdown_count + 1 ∧
    10 < (stepBody cfgA sCount10).1.shutdown_count :=
  (c3_debounced_termination.1 cfgA sCount10).1
    (by norm_num [stepBody, processWaypoints, odomBranch, distLt,
      clampShutdown, initNode, originStart, sCount10, cfgA])

/-- C7: in the odometry branch, when the current index is not the last one
and the Euclidean distance from the pose to the current goal is strictly
below the threshold, one tick advances the index by exactly one and
recomputes the goal from the new index; a distance exactly equal to the
threshold does not advance the index or the goal. -/
theorem c7_single_step_advance (cfg : Config) (s : NodeState)
    (ho : s.odom_rcvd = true) (hs : s.state ≠ -1)
    (hl : s.current_waypoint + 1 ≠ s.current_waypoints.length) :
    (Real.sqrt (((s.goal.1 - s.odom.1 : ℚ) : ℝ) ^ 2 +
          ((s.goal.2 - s.odom.2 : ℚ) : ℝ) ^ 2) < (cfg.goal_dist : ℝ) →
      (odomBranch cfg s).1.current_waypoint = s.current_waypoint + 1 ∧
      (odomBranch cfg s).1.goal =
        s.current_waypoints.getD (s.current_waypoint + 1) (0, 0)) ∧
    (Real.sqrt (((s.goal.1 - s.odom.1 : ℚ) : ℝ) ^ 2 +
          ((s.goal.2 - s.odom.2 : ℚ) : ℝ) ^ 2) = (cfg.goal_dist : ℝ) →
      (odomBranch cfg s).1.current_waypoint = s.current_waypoint ∧
      (odomBranch cfg s).1.goal = s.goal) := by
  have hcond : (s.odom_rcvd && (s.state != -1)) = true := by
    simp [ho, bne_iff_ne, hs]
  constructor
  · intro hlt
    have hnear : distLt (s.goal.1 - s.odom.1) (s.goal.2 - s.odom.2)
        cfg.goal_dist = true := (distLt_iff_sqrt _ _ _).mpr hlt
    unfold odomBranch
    dsimp only
    rw [if_pos hcond, if_neg (by simpa [beq_iff_eq] using hl), if_pos hnear]
    exact ⟨rfl, rfl⟩
  · intro heq
    have hnear : distLt (s.goal.1 - s.odom.1) (s.goal.2 - s.odom.2)
        cfg.goal_dist = false := by
      rw [← Bool.not_eq_true]
      intro hc
      have hlt := (distLt_iff_sqrt _ _ _).mp hc
      rw [heq] at hlt
      exact lt_irrefl _ hlt
    unfold odomBranch
    dsimp only
    rw [if_pos hcond, if_neg (by simpa [beq_iff_eq] using hl),
      if_neg (by simp [hnear])]
    exact ⟨rfl, rfl⟩

/-- Closed instantiation of c7_single_step_advance: at distance 0 below
threshold 3 the index advances from 0 to exactly 1; at distance exactly 3
it stays 0. -/
theorem c7_single_step_advance_witness :
    (odomBranch cfgA sAdv).1.current_waypoint = 0 + 1 ∧
    (odomBranch cfgA sEq).1.current_waypoint = 0 :=
  ⟨((c7_single_step_advance cfgA sAdv rfl (by decide) (by decide)).1
      (by norm_num [sAdv, emptyStart, initNode, cfgA, Real.sqrt_zero])).1,
   ((c7_single_step_advance cfgA sEq rfl (by decide) (by decide)).2
      (by
        have h9 : (((sEq.goal.1 - sEq.odom.1 : ℚ) : ℝ) ^ 2 +
            ((sEq.goal.2 - sEq.odom.2 : ℚ) : ℝ) ^ 2) = 3 ^ 2 := by
          norm_num [sEq, sAdv, emptyStart, initNode]
        rw [h9, Real.sqrt_sq (by norm_num : (0 : ℝ) ≤ 3)]
        norm_num [cfgA])).1⟩

/-- C8: in the odometry branch at the last index with the distance to the
goal strictly below the threshold (or the shutdown condition already
latched), the configured clamped shutdown state is published, the index and
list are unchanged, and the branch re-establishes all of its own
preconditions, so every repeated such tick signals again and never
advances the index. -/
theorem c8_goal_reached_no_advance (cfg : Config) (s : NodeState)
    (ho : s.odom_rcvd = true) (hs : s.state ≠ -1)
    (hl : s.current_waypoint + 1 = s.current_waypoints.length)
    (hr : Real.sqrt (((s.goal.1 - s.odom.1 : ℚ) : ℝ) ^ 2 +
            ((s.goal.2 - s.odom.2 : ℚ) : ℝ) ^ 2) < (cfg.goal_dist : ℝ) ∨
          s.shutdown_condition = true) :
    (odomBranch cfg s).2.1 = [clampShutdown cfg.shutdown_behavior] ∧
    (odomBranch cfg s).1.state = clampShutdown cfg.shutdown_behavior ∧
    (odomBranch cfg s).1.current_waypoint = s.current_waypoint ∧
    (odomBranch cfg s).1.current_waypoints = s.current_waypoints ∧
    (odomBranch cfg s).1.goal = s.goal ∧
    (odomBranch cfg s).1.odom = s.odom ∧
    (odomBranch cfg s).1.odom_rcvd = true ∧
    (odomBranch cfg s).1.state ≠ -1 ∧
    (odomBranch cfg s).1.current_waypoint + 1 =
      (odomBranch cfg s).1.current_waypoints.length ∧
    (odomBranch cfg s).1.shutdown_condition = true := by
  have hcond : (s.odom_rcvd && (s.state != -1)) = true := by
    simp [ho, bne_iff_ne, hs]
  have hor : (distLt (s.goal.1 - s.odom.1) (s.goal.2 - s.odom.2) cfg.goal_dist
      || s.shutdown_condition) = true := by
    rcases hr with h | h
    · rw [(distLt_iff_sqrt _ _ _).mpr h]
      simp
    · rw [h]
      simp
  unfold odomBranch
  dsimp only
  rw [if_pos hcond, if_pos (by simpa [beq_iff_eq] using hl), if_pos hor]
  refine ⟨rfl, rfl, rfl, rfl, rfl, rfl, ho, ?_, hl, rfl⟩
  show clampShutdown cfg.shutdown_behavior ≠ -1
  rcases clampShutdown_mem cfg.shutdown_behavior with h | h | h <;>
    rw [h] <;> decide

/-- Closed instantiation of c8_goal_reached_no_advance at the final
waypoint with distance 0: state 2 is signaled and the index stays 0. -/
theorem c8_goal_reached_no_advance_witness :
    (odomBranch cfgA sFinal).2.1 = [clampShutdown cfgA.shutdown_behavior] ∧
    (odomBranch cfgA sFinal).1.current_waypoint = sFinal.current_waypoint :=
  ⟨(c8_goal_reached_no_advance cfgA sFinal rfl (by decide) (by decide)
      (Or.inl (by norm_num [sFinal, originStart, initNode, cfgA,
        Real.sqrt_zero]))).1,
   (c8_goal_reached_no_advance cfgA sFinal rfl (by decide) (by decide)
      (Or.inl (by norm_num [sFinal, originStart, initNode, cfgA,
        Real.sqrt_zero]))).2.2.1⟩

/-- C10: every state value the node ever publishes — at initialization and
on every tick of every schedule — is -1, 0, or the clamped
shutdown_behavior, and the clamped shutdown_behavior is 1, 2 or 3; hence
the published state is always in the set of values -1, 0, 1, 2, 3. -/
theorem c10_published_state_range (cfg : Config) (xs ys : List ℚ)
    (sched : List (List Event)) :
    (∀ x ∈ (initNode xs ys).2 ++
        tracePubs (runTrace cfg (initNode xs ys).1 sched),
      x = -1 ∨ x = 0 ∨ x = clampShutdown cfg.shutdown_behavior) ∧
    (clampShutdown cfg.shutdown_behavior = 1 ∨
      clampShutdown cfg.shutdown_behavior = 2 ∨
      clampShutdown cfg.shutdown_behavior = 3) := by
  refine ⟨?_, clampShutdown_mem cfg.shutdown_behavior⟩
  have hok : StateOk cfg (initNode xs ys).1 := by
    unfold initNode StateOk
    dsimp only
    split
    · exact Or.inr (Or.inl rfl)
    · exact Or.inl rfl
  have hpub : (initNode xs ys).2 = [] ∨ (initNode xs ys).2 = [0] := by
    unfold initNode
    dsimp only
    split
    · exact Or.inr rfl
    · exact Or.inl rfl
  intro x hx
  rcases List.mem_append.mp hx with hx | hx
  · rcases hpub with h | h <;> rw [h] at hx <;> simp at hx
    rw [hx]
    exact Or.inr (Or.inl rfl)
  · exact runTrace_stateOk cfg sched (initNode xs ys).1 hok x hx

/-- Closed instantiation of c10_published_state_range on a one-tick run of
a one-waypoint configuration. -/
theorem c10_published_state_range_witness :
    ((0 : Int) = -1 ∨ (0 : Int) = 0 ∨
      (0 : Int) = clampShutdown cfgA.shutdown_behavior) ∧
    (clampShutdown cfgA.shutdown_behavior = 1 ∨
      clampShutdown cfgA.shutdown_behavior = 2 ∨
      clampShutdown cfgA.shutdown_behavior = 3) :=
  ⟨(c10_published_state_range cfgA [0] [0] [[]]).1 0 (by decide),
   (c10_published_state_range cfgA [0] [0] [[]]).2⟩

end NatureGlobalPath
